import Mathlib

/-!
Verification development for the Adaptive Form Automation Engine of the
`job-agent` repository.  The definitions below are a shallow embedding of
`src/job_agent/linkedin/job_applier.py` (class `LLMGenericApplicator`):
pure Python expressions become Lean functions, the Selenium driver and the
OpenAI reasoning service become an explicit environment of oracles whose
answers (`Except Unit _`: `.error` models a raised Python exception), and
the mutable `structure_cache` dictionary is threaded as explicit state.
-/

namespace JobAgent

/-! ## String helpers (models of Python string operations)

`splitFirst sep l` scans `l` left to right for the first occurrence of the
separator `sep` and returns the pair (characters before it, characters
after it), or `none` when `sep` does not occur.  This models the behaviour
of Python's `str.split(sep)` restricted to the first two chunks, and of
the `in` containment test.
-/

/-- Predicate `leadsWith p l` is true when `p` is an initial segment of `l`. -/
def leadsWith : List Char → List Char → Bool
  | [], _ => true
  | _ :: _, [] => false
  | a :: asx, b :: bs => a == b && leadsWith asx bs

/-- First occurrence split: `splitFirst sep l = some (pre, post)` when
`l = pre ++ sep ++ post` with `pre` not containing `sep`. -/
def splitFirst (sep : List Char) : List Char → Option (List Char × List Char)
  | [] => if leadsWith sep [] then some ([], []) else none
  | c :: cs =>
    if leadsWith sep (c :: cs) then some ([], (c :: cs).drop sep.length)
    else match splitFirst sep cs with
      | some (pre, post) => some (c :: pre, post)
      | none => none

/-- Characters of `l` before the first occurrence of `sep`
(all of `l` when `sep` is absent): Python `l.split(sep)[0]`. -/
def takeUntilSub (sep l : List Char) : List Char :=
  match splitFirst sep l with
  | some (pre, _) => pre
  | none => l

/-- Characters of `l` after the first occurrence of `sep`, when present. -/
def afterSub (sep l : List Char) : Option (List Char) :=
  match splitFirst sep l with
  | some (_, post) => some post
  | none => none

/-! ## Site identity key

Model of `urlparse(url).netloc` as used by `_get_domain_key` (line 77-82):
an optional leading `scheme:` (a letter followed by alphanumeric / `+` /
`-` / `.` characters) is removed; the netloc is then the text between a
leading `//` and the next `/`, `?` or `#`, and is empty when the remainder
does not start with `//`. -/

/-- Characters allowed in a URL scheme after the leading letter. -/
def isSchemeChar (c : Char) : Bool :=
  c.isAlphanum || c == '+' || c == '-' || c == '.'

/-- Strip a valid `scheme:` from the front of a URL, per `urllib.parse`. -/
def stripScheme (url : List Char) : List Char :=
  match splitFirst [':'] url with
  | none => url
  | some (pre, post) =>
    match pre with
    | [] => url
    | c :: cs => if c.isAlpha && cs.all isSchemeChar then post else url

/-- The network-location part of a URL (`urlparse(url).netloc`). -/
def netloc (url : String) : String :=
  let rest := stripScheme url.data
  if leadsWith ['/', '/'] rest then
    String.mk ((rest.drop 2).takeWhile fun c => c ≠ '/' && c ≠ '?' && c ≠ '#')
  else ""

/-! ## Data model

`FormStructure` is the shape of the JSON document produced by
`_analyze_page_structure` and consumed by `_fill_form` and `apply`.  The
Python code reads it with `dict.get`, so every key may be absent: fields
read by the code are `Option`-valued (`none` models a missing key, and
Python `None`).  Keys the code never reads (such as `options`, which only
the reasoning service consumes) are elided. -/

/-- A `submit_button` entry: `{"text": ..., "selector": ...}`. -/
structure SubmitInfo where
  text : Option String
  selector : Option String
deriving DecidableEq

/-- One entry of the `fields` list of an analyzed structure. -/
structure FieldSpec where
  label : Option String
  selector : Option String
  ftype : Option String
  required : Option Bool
deriving DecidableEq

/-- A parsed page-structure document (`structure` in the Python code). -/
structure FormStructure where
  fields : List FieldSpec
  submit_button : Option SubmitInfo
deriving DecidableEq

/-- The schema cache `self.structure_cache`: a string-keyed dictionary,
modelled as an association list with unique keys. -/
abbrev Cache := List (String × FormStructure)

/-- The fill-value map returned by `_generate_field_values`. -/
abbrev ValueMap := List (String × String)

/-- The candidate profile: an opaque key-value document. -/
abbrev Profile := List (String × String)

/-- Dictionary lookup on the schema cache (`domain in self.structure_cache`
and `self.structure_cache[domain]`). -/
def lookupCache (k : String) : Cache → Option FormStructure
  | [] => none
  | (k', v) :: rest => if k' = k then some v else lookupCache k rest

/-- Dictionary assignment `self.structure_cache[domain] = structure`:
replace an existing binding, otherwise append. -/
def insertCache (k : String) (v : FormStructure) : Cache → Cache
  | [] => [(k, v)]
  | (k', v') :: rest =>
    if k' = k then (k, v) :: rest else (k', v') :: insertCache k v rest

/-- Dictionary lookup `filled_values.get(label)`. -/
def lookupVal (k : String) : ValueMap → Option String
  | [] => none
  | (k', v) :: rest => if k' = k then some v else lookupVal k rest

/-- Python falsiness of an optional string: `not x` is true for a missing
key, `None`, and the empty string. -/
def pyFalsy : Option String → Bool
  | none => true
  | some s => s == ""

/-- Model of `filled_values.get(label)` for a field (line 226): `none` both when the
label is absent from the value map and when the field has no label. -/
def valueOf (vals : ValueMap) (f : FieldSpec) : Option String :=
  match f.label with
  | some l => lookupVal l vals
  | none => none

/-- The resolvable submit selector of a structure, per lines 316-322:
`none` when `submit_button` is missing / falsy or its `selector` is
missing / empty. -/
def submitSelOf (st : FormStructure) : Option String :=
  match st.submit_button with
  | none => none
  | some si =>
    match si.selector with
    | none => none
    | some s => if s = "" then none else some s

/-- Decidable equality for `Except`, needed to evaluate run results on
concrete inputs. -/
instance exceptDecEq {ε α : Type} [DecidableEq ε] [DecidableEq α] :
    DecidableEq (Except ε α) := fun x y =>
  match x, y with
  | .ok a, .ok b =>
    if h : a = b then isTrue (by rw [h])
    else isFalse (by intro hx; cases hx; exact h rfl)
  | .ok _, .error _ => isFalse (by intro hx; cases hx)
  | .error _, .ok _ => isFalse (by intro hx; cases hx)
  | .error a, .error b =>
    if h : a = b then isTrue (by rw [h])
    else isFalse (by intro hx; cases hx; exact h rfl)

/-! ## Environment

The Selenium driver and the OpenAI client are external collaborators; each
interaction is an oracle whose answer is fixed by the environment.
`Except Unit Unit` results model Python calls that either return normally
(`.ok`) or raise (`.error`). -/

/-- Outcome of `Select.select_by_value` / `select_by_visible_text`:
normal return, a raised `NoSuchElementException` (caught by the inner
fallback chain at lines 251-259), or any other raised exception (caught
only by the per-field handler at line 288).  The `err` case also absorbs
a failing `Select(element)` constructor. -/
inductive SelectRes where
  | ok
  | noSuchElement
  | err
deriving DecidableEq

/-- Oracles for the automation surface, indexed by CSS selector. -/
structure AutoEnv where
  /-- Call `wait.until(EC.presence_of_element_located(...))` for a selector. -/
  presence : String → Except Unit Unit
  /-- Call `wait.until(EC.element_to_be_clickable(...))` for a selector. -/
  clickable : String → Except Unit Unit
  /-- Call `driver.execute_script` to click the element
  located by a selector. -/
  scriptClick : String → Except Unit Unit
  /-- Call `element.clear()` on the element located by a selector. -/
  clear : String → Except Unit Unit
  /-- Call `element.send_keys(value)` on the element located by a selector. -/
  sendKeys : String → String → Except Unit Unit
  /-- Call `Select(element).select_by_value(value)`. -/
  selByValue : String → String → SelectRes
  /-- Call `Select(element).select_by_visible_text(value)`. -/
  selByText : String → String → SelectRes

/-- The whole external world of one `LLMGenericApplicator`. -/
structure Env where
  /-- Navigation: `driver.get(url)` + readiness wait + `driver.page_source`
  (lines 294-299): `.ok html` on success, `.error` when any of them
  raises. -/
  nav : Except Unit String
  /-- The reasoning-service call of `_analyze_page_structure` composed
  with `json.loads` (lines 152-161), as a function of the inputs the
  request is built from: `.error` models a failed request or unparseable
  output. -/
  llmAnalyze : String → String → Except Unit FormStructure
  /-- The reasoning-service call of `_generate_field_values` composed with
  `json.loads` (lines 203-212), as a function of the form structure and
  candidate profile the prompt is built from. -/
  llmGenerate : FormStructure → Profile → Except Unit ValueMap
  /-- The automation surface. -/
  auto : AutoEnv

/-! ## Form Executor: `_fill_form` (lines 214-289) -/

/-- Per-field outcome, read off the branch taken by the loop body (each
branch is identified by the log line it emits). -/
inductive FillOutcome where
  /-- The dispatch completed normally (the field was interacted with). -/
  | filled
  /-- Line 228-230: missing/falsy label, selector or type. -/
  | skippedMalformed
  /-- Line 232-234: value absent, falsy, or the skip sentinel `"N/A"`. -/
  | skippedNoValue
  /-- Line 259: neither select-by-value nor select-by-text found the
  option (warning, no exception). -/
  | optionNotFound
  /-- Line 280: the radio group name could not be parsed (error log, no
  exception). -/
  | radioNameUnparsed
  /-- Line 288-289: an exception was raised and caught by the per-field
  handler. -/
  | failed
deriving DecidableEq

/-- Result of processing one field: its outcome and the number of
automation-surface calls issued for it. -/
structure FillStep where
  outcome : FillOutcome
  calls : Nat
deriving DecidableEq

/-- The radio group-name extraction of lines 266-268:
`selector.split("[name='")[1].split("']")[0]` guarded by
`"[name='" in selector`. -/
def radioName (selector : String) : Option String :=
  let sep := "[name='".data
  match afterSub sep selector.data with
  | none => none
  | some post => some (String.mk (takeUntilSub "']".data (takeUntilSub sep post)))

/-- The `try` block of the loop body (lines 236-287): type dispatch.
Returns the outcome (`.error` = an exception escapes to the per-field
handler) together with the number of automation-surface calls made. -/
def fillAttempt (env : AutoEnv) (ftype selector target : String) :
    Except Unit FillOutcome × Nat :=
  if ftype = "file" then
    -- CASE 1 (lines 240-245): presence wait, then send_keys with the path.
    match env.presence selector with
    | .error e => (.error e, 1)
    | .ok _ =>
      match env.sendKeys selector target with
      | .error e => (.error e, 2)
      | .ok _ => (.ok .filled, 2)
  else if ftype = "select" then
    -- CASE 2 (lines 247-259): by-value, then by-visible-text fallback.
    match env.presence selector with
    | .error e => (.error e, 1)
    | .ok _ =>
      match env.selByValue selector target with
      | .ok => (.ok .filled, 2)
      | .err => (.error (), 2)
      | .noSuchElement =>
        match env.selByText selector target with
        | .ok => (.ok .filled, 3)
        | .err => (.error (), 3)
        | .noSuchElement => (.ok .optionNotFound, 3)
  else if ftype = "radio" then
    -- CASE 3 (lines 261-280): parse the group name, script-click the option.
    match radioName selector with
    | none => (.ok .radioNameUnparsed, 0)
    | some nm =>
      let optSel := "input[name='" ++ nm ++ "'][value='" ++ target ++ "']"
      match env.clickable optSel with
      | .error e => (.error e, 1)
      | .ok _ =>
        match env.scriptClick optSel with
        | .error e => (.error e, 2)
        | .ok _ => (.ok .filled, 2)
  else
    -- CASE 4 (lines 282-286): presence wait, clear, send_keys.
    match env.presence selector with
    | .error e => (.error e, 1)
    | .ok _ =>
      match env.clear selector with
      | .error e => (.error e, 2)
      | .ok _ =>
        match env.sendKeys selector target with
        | .error e => (.error e, 3)
        | .ok _ => (.ok .filled, 3)

/-- One iteration of the `for field in fields` loop (lines 220-289),
checks in source order: malformed-field guard (line 228), skip-sentinel
guard (line 232), then the `try`ed dispatch whose exceptions the handler
at line 288 converts to a logged failure.  The `getD` defaults are
unreachable: the guards ensure the options are non-falsy. -/
def fillOne (vals : ValueMap) (env : AutoEnv) (f : FieldSpec) : FillStep :=
  let target := valueOf vals f
  if pyFalsy f.label || pyFalsy f.selector || pyFalsy f.ftype then
    ⟨.skippedMalformed, 0⟩
  else if pyFalsy target || target == some "N/A" then
    ⟨.skippedNoValue, 0⟩
  else
    match fillAttempt env (f.ftype.getD "") (f.selector.getD "") (target.getD "") with
    | (.ok o, n) => ⟨o, n⟩
    | (.error _, n) => ⟨.failed, n⟩

/-- The whole `_fill_form` loop: one `FillStep` per field, in order.
(The Python function returns `None`; the step list is the record of the
per-field log lines.) -/
def fillForm (vals : ValueMap) (env : AutoEnv) : List FieldSpec → List FillStep
  | [] => []
  | f :: rest => fillOne vals env f :: fillForm vals env rest

/-! ## Structure Analyzer: `_analyze_page_structure` (lines 100-166) -/

/-- Result of one `_analyze_page_structure` call: the returned (or
raised) value, the cache state afterwards, the number of
reasoning-service requests issued, and whether a cache write occurred. -/
structure AnalyzeRes where
  out : Except Unit FormStructure
  cache : Cache
  calls : Nat
  wrote : Bool
deriving DecidableEq

/-- Model of `_analyze_page_structure(url, html)`: return the cached structure on a
hit (lines 107-109, no service call); otherwise issue one service request
and parse it (a parse failure propagates, line 161), then store the
parsed structure unconditionally (lines 164-165) and return it. -/
def analyzeRun (c : Cache) (url html : String) (env : Env) : AnalyzeRes :=
  let domain := netloc url
  match lookupCache domain c with
  | some st => ⟨.ok st, c, 0, false⟩
  | none =>
    match env.llmAnalyze url html with
    | .error e => ⟨.error e, c, 1, false⟩
    | .ok st => ⟨.ok st, insertCache domain st c, 1, true⟩

/-- Number of cache writes whose key is `h` over a sequence of
`_analyze_page_structure` calls (each given by a URL and page markup),
threading the cache state. -/
def analyzeWrites (h : String) (env : Env) : Cache → List (String × String) → Nat
  | _, [] => 0
  | c, (url, html) :: rest =>
    let r := analyzeRun c url html env
    (if r.wrote && netloc url == h then 1 else 0) + analyzeWrites h env r.cache rest

/-! ## Value Generator: `_generate_field_values` (lines 168-212) -/

/-- Model of `_generate_field_values(form_structure, candidate_data)`: builds a
prompt embedding the profile and the structure, issues one reasoning
request, and returns `json.loads` of the response verbatim — there is no
post-processing of the returned map (the required-field rule exists only
as prompt text, absorbed here into the oracle's inputs). -/
def generateRun (st : FormStructure) (prof : Profile) (env : Env) :
    Except Unit ValueMap :=
  env.llmGenerate st prof

/-! ## Schema Cache loading: `_load_cache` (lines 63-71) -/

/-- Observable states of the backing cache file. -/
inductive CacheFile where
  /-- State where `os.path.exists` is false. -/
  | absent
  /-- State where `open`/read raises an `OSError` (permissions, I/O failure). -/
  | unreadable
  /-- The file opens but `json.load` raises `json.JSONDecodeError`. -/
  | corrupt
  /-- The file opens and parses to the given dictionary. -/
  | wellFormed (c : Cache)

/-- Model of `_load_cache`: absent file starts empty (line 71); a decode error is
caught, warned about, and degrades to empty (lines 68-70); an I/O error
while opening or reading is not caught and propagates (`.error`). -/
def loadCache : CacheFile → Except Unit Cache
  | .absent => .ok []
  | .unreadable => .error ()
  | .corrupt => .ok []
  | .wellFormed c => .ok c

/-! ## Applicator: `apply` (lines 291-350) -/

/-- Observable result of one `apply` call: the returned value (`.error`
would be an exception escaping `apply`), the cache afterwards, whether the
automated submit click was executed (line 336), and whether the run paused
for manual submission (the breakpoints at lines 319 and 343, both reached
with a "manual submission" log line). -/
structure RunRes where
  out : Except Unit Bool
  cache : Cache
  submitted : Bool
  manualSubmitPause : Bool
deriving DecidableEq

/-- The body of `apply`'s outer `try` (lines 293-345).  The fill stage's
per-field record is bound and discarded: `_fill_form` returns `None` and
`apply` reads nothing from it. -/
def tryBody (c : Cache) (env : Env) (url : String) (prof : Profile) : RunRes :=
  match env.nav with
  | .error e => ⟨.error e, c, false, false⟩
  | .ok html =>
    let ar := analyzeRun c url html env
    match ar.out with
    | .error e => ⟨.error e, ar.cache, false, false⟩
    | .ok st =>
      if st.fields = [] then
        -- line 302-304: `if not structure.get("fields"): return False`
        ⟨.ok false, ar.cache, false, false⟩
      else
        match generateRun st prof env with
        | .error e => ⟨.error e, ar.cache, false, false⟩
        | .ok vals =>
          let _report := fillForm vals env.auto st.fields
          match submitSelOf st with
          | none =>
            -- lines 316-320: no resolvable submit button; pause, return True
            ⟨.ok true, ar.cache, false, true⟩
          | some sel =>
            -- lines 332-345: inner try: clickable wait + script click;
            -- on exception pause for manual submission; return True anyway
            match env.auto.clickable sel with
            | .error _ => ⟨.ok true, ar.cache, false, true⟩
            | .ok _ =>
              match env.auto.scriptClick sel with
              | .error _ => ⟨.ok true, ar.cache, false, true⟩
              | .ok _ => ⟨.ok true, ar.cache, true, false⟩

/-- Model of `apply(job_url, candidate_data)`: the outer `except Exception` handler
(lines 347-350) converts any escaped exception into a `False` return. -/
def applyRun (c : Cache) (env : Env) (url : String) (prof : Profile) : RunRes :=
  let b := tryBody c env url prof
  match b.out with
  | .ok _ => b
  | .error _ => ⟨.ok false, b.cache, b.submitted, b.manualSubmitPause⟩

/-- Variant of `apply` with the fill stage deleted, otherwise identical to
`tryBody`/`applyRun`: the comparison definition used to show that the
Applicator consults no fill report. -/
def tryBodyNoFill (c : Cache) (env : Env) (url : String) (prof : Profile) : RunRes :=
  match env.nav with
  | .error e => ⟨.error e, c, false, false⟩
  | .ok html =>
    let ar := analyzeRun c url html env
    match ar.out with
    | .error e => ⟨.error e, ar.cache, false, false⟩
    | .ok st =>
      if st.fields = [] then
        ⟨.ok false, ar.cache, false, false⟩
      else
        match generateRun st prof env with
        | .error e => ⟨.error e, ar.cache, false, false⟩
        | .ok _vals =>
          match submitSelOf st with
          | none => ⟨.ok true, ar.cache, false, true⟩
          | some sel =>
            match env.auto.clickable sel with
            | .error _ => ⟨.ok true, ar.cache, false, true⟩
            | .ok _ =>
              match env.auto.scriptClick sel with
              | .error _ => ⟨.ok true, ar.cache, false, true⟩
              | .ok _ => ⟨.ok true, ar.cache, true, false⟩

/-- The no-fill variant of `applyRun`. -/
def applyRunNoFill (c : Cache) (env : Env) (url : String) (prof : Profile) : RunRes :=
  let b := tryBodyNoFill c env url prof
  match b.out with
  | .ok _ => b
  | .error _ => ⟨.ok false, b.cache, b.submitted, b.manualSubmitPause⟩

/-! ## Concrete fixtures

Small closed environments used to evaluate the model on concrete runs. -/

/-- An automation surface on which every interaction succeeds. -/
def autoOk : AutoEnv :=
  ⟨fun _ => .ok (), fun _ => .ok (), fun _ => .ok (), fun _ => .ok (),
   fun _ _ => .ok (), fun _ _ => .ok, fun _ _ => .ok⟩

/-- An automation surface on which every presence wait times out (so every
field fill raises) while clicks still succeed. -/
def autoNoPresence : AutoEnv := { autoOk with presence := fun _ => .error () }

/-- A single well-formed required text field. -/
def fldPhone : FieldSpec := ⟨some "Phone", some "#phone", some "text", some true⟩

/-- A well-formed field with a missing selector key. -/
def fldNoSel : FieldSpec := ⟨some "Phone", none, some "text", some true⟩

/-- A one-field structure with a resolvable submit button. -/
def stSub : FormStructure := ⟨[fldPhone], some ⟨some "Submit", some "#sub"⟩⟩

/-- A one-field structure with no submit button at all. -/
def stMan : FormStructure := ⟨[fldPhone], none⟩

/-- A structure with zero fields (an analysis the code must reject). -/
def stEmptyFields : FormStructure := ⟨[], some ⟨some "Submit", some "#sub"⟩⟩

/-- A value map covering the phone field. -/
def valsPhone : ValueMap := [("Phone", "12345")]

/-- Everything succeeds; analysis returns `stSub`. -/
def envSub : Env := ⟨.ok "<html>", fun _ _ => .ok stSub, fun _ _ => .ok valsPhone, autoOk⟩

/-- Everything succeeds; analysis returns `stMan` (no submit button). -/
def envMan : Env := ⟨.ok "<html>", fun _ _ => .ok stMan, fun _ _ => .ok valsPhone, autoOk⟩

/-- Analysis returns a zero-field structure. -/
def envEmptyFields : Env :=
  ⟨.ok "<html>", fun _ _ => .ok stEmptyFields, fun _ _ => .ok valsPhone, autoOk⟩

/-- Navigation raises. -/
def envNavFail : Env := ⟨.error (), fun _ _ => .error (), fun _ _ => .error (), autoOk⟩

/-- Analysis and generation succeed but every field fill fails. -/
def envFillFail : Env :=
  ⟨.ok "<html>", fun _ _ => .ok stSub, fun _ _ => .ok valsPhone, autoNoPresence⟩

/-- The reasoning service answers the generation request with the skip
sentinel for the (required) phone field. -/
def envGenNA : Env :=
  ⟨.ok "<html>", fun _ _ => .ok stSub, fun _ _ => .ok [("Phone", "N/A")], autoOk⟩

/-! ## Helper lemmas -/

theorem fillForm_length (vals : ValueMap) (env : AutoEnv) :
    ∀ fields : List FieldSpec, (fillForm vals env fields).length = fields.length := by
  intro fields
  induction fields with
  | nil => rfl
  | cons f rest ih => simp [fillForm, ih]

theorem fillForm_append (vals : ValueMap) (env : AutoEnv) (xs ys : List FieldSpec) :
    fillForm vals env (xs ++ ys) = fillForm vals env xs ++ fillForm vals env ys := by
  induction xs with
  | nil => rfl
  | cons f rest ih => simp [fillForm, ih]

theorem lookupCache_insertCache_self (k : String) (v : FormStructure) :
    ∀ c : Cache, lookupCache k (insertCache k v c) = some v := by
  intro c
  induction c with
  | nil => simp [insertCache, lookupCache]
  | cons p rest ih =>
    obtain ⟨k', v'⟩ := p
    by_cases h : k' = k
    · simp [insertCache, h, lookupCache]
    · simp [insertCache, h, lookupCache, ih]

theorem lookupCache_insertCache_ne (k h : String) (v : FormStructure) (hne : k ≠ h) :
    ∀ c : Cache, lookupCache h (insertCache k v c) = lookupCache h c := by
  intro c
  induction c with
  | nil => simp [insertCache, lookupCache, hne]
  | cons p rest ih =>
    obtain ⟨k', v'⟩ := p
    by_cases hk : k' = k
    · subst hk
      simp [insertCache, lookupCache, hne]
    · simp [insertCache, hk, lookupCache, ih]

theorem analyzeWrites_zero_of_hit (h : String) (env : Env) :
    ∀ (calls : List (String × String)) (c : Cache),
      (lookupCache h c).isSome → analyzeWrites h env c calls = 0 := by
  intro calls
  induction calls with
  | nil => intro c _; rfl
  | cons p rest ih =>
    intro c hc
    obtain ⟨url, html⟩ := p
    cases hlook : lookupCache (netloc url) c with
    | some st =>
      simp only [analyzeWrites, analyzeRun, hlook]
      simpa using ih c hc
    | none =>
      have hne : netloc url ≠ h := by
        intro he
        rw [← he, hlook] at hc
        simp at hc
      cases hA : env.llmAnalyze url html with
      | error e =>
        simp only [analyzeWrites, analyzeRun, hlook, hA]
        simpa using ih c hc
      | ok st =>
        have hc' : (lookupCache h (insertCache (netloc url) st c)).isSome := by
          rw [lookupCache_insertCache_ne _ _ _ hne]
          exact hc
        have hb : (netloc url == h) = false := by simp [hne]
        simp only [analyzeWrites, analyzeRun, hlook, hA]
        simpa [hb] using ih _ hc'

theorem analyzeWrites_le_one (h : String) (env : Env) :
    ∀ (calls : List (String × String)) (c : Cache),
      analyzeWrites h env c calls ≤ 1 := by
  intro calls
  induction calls with
  | nil => intro c; simp [analyzeWrites]
  | cons p rest ih =>
    intro c
    obtain ⟨url, html⟩ := p
    cases hlook : lookupCache (netloc url) c with
    | some st =>
      simp only [analyzeWrites, analyzeRun, hlook]
      simpa using ih c
    | none =>
      cases hA : env.llmAnalyze url html with
      | error e =>
        simp only [analyzeWrites, analyzeRun, hlook, hA]
        simpa using ih c
      | ok st =>
        by_cases hd : netloc url = h
        · subst hd
          have h0 : analyzeWrites (netloc url) env
              (insertCache (netloc url) st c) rest = 0 := by
            apply analyzeWrites_zero_of_hit
            rw [lookupCache_insertCache_self]
            rfl
          simp only [analyzeWrites, analyzeRun, hlook, hA]
          simp [h0]
        · have hb : (netloc url == h) = false := by simp [hd]
          simp only [analyzeWrites, analyzeRun, hlook, hA]
          simpa [hb] using ih _

/-- Reduction of `tryBody` when navigation and analysis succeed but the
analyzed structure has no fields (lines 302-304 of `apply`). -/
theorem tryBody_fields_empty (c : Cache) (env : Env) (url : String) (prof : Profile)
    (html : String) (st : FormStructure)
    (hnav : env.nav = .ok html)
    (hout : (analyzeRun c url html env).out = .ok st)
    (hfields : st.fields = []) :
    tryBody c env url prof =
      ⟨.ok false, (analyzeRun c url html env).cache, false, false⟩ := by
  unfold tryBody
  rw [hnav]
  cases ho : (analyzeRun c url html env).out with
  | error e => rw [ho] at hout; simp at hout
  | ok st' =>
    have hst : st' = st := by rw [ho] at hout; simpa using hout
    subst hst
    simp [ho, hfields]

/-- Reduction of `tryBody` on the no-submit-button path (lines 316-320). -/
theorem tryBody_no_submit (c : Cache) (env : Env) (url : String) (prof : Profile)
    (html : String) (st : FormStructure) (vals : ValueMap)
    (hnav : env.nav = .ok html)
    (hout : (analyzeRun c url html env).out = .ok st)
    (hfields : st.fields ≠ [])
    (hgen : env.llmGenerate st prof = .ok vals)
    (hsubmit : submitSelOf st = none) :
    tryBody c env url prof =
      ⟨.ok true, (analyzeRun c url html env).cache, false, true⟩ := by
  unfold tryBody
  rw [hnav]
  cases ho : (analyzeRun c url html env).out with
  | error e => rw [ho] at hout; simp at hout
  | ok st' =>
    have hst : st' = st := by rw [ho] at hout; simpa using hout
    subst hst
    simp [ho, hfields, generateRun, hgen, hsubmit]

/-- Reduction of `tryBody` on the confirmed submit-click path
(lines 332-338). -/
theorem tryBody_submitted (c : Cache) (env : Env) (url : String) (prof : Profile)
    (html : String) (st : FormStructure) (vals : ValueMap) (sel : String)
    (hnav : env.nav = .ok html)
    (hout : (analyzeRun c url html env).out = .ok st)
    (hfields : st.fields ≠ [])
    (hgen : env.llmGenerate st prof = .ok vals)
    (hsubmit : submitSelOf st = some sel)
    (hclick : env.auto.clickable sel = .ok ())
    (hscript : env.auto.scriptClick sel = .ok ()) :
    tryBody c env url prof =
      ⟨.ok true, (analyzeRun c url html env).cache, true, false⟩ := by
  unfold tryBody
  rw [hnav]
  cases ho : (analyzeRun c url html env).out with
  | error e => rw [ho] at hout; simp at hout
  | ok st' =>
    have hst : st' = st := by rw [ho] at hout; simpa using hout
    subst hst
    simp [ho, hfields, generateRun, hgen, hsubmit, hclick, hscript]

/-! ## Claim theorems -/

/-- C3: a failure while filling one field never aborts processing of the
subsequent fields of `_fill_form`: the run produces exactly one outcome
per field, and for any decomposition `pre ++ f :: post` the record is the
records of `pre` and `post` unchanged around `f`'s own independent
outcome — whatever that outcome (including `failed`) is, because the
per-field `except` handler confines every exception to its own
iteration. -/
theorem fill_fault_isolation (vals : ValueMap) (env : AutoEnv) :
    (∀ fields : List FieldSpec, (fillForm vals env fields).length = fields.length) ∧
    (∀ (pre : List FieldSpec) (f : FieldSpec) (post : List FieldSpec),
      fillForm vals env (pre ++ f :: post) =
        fillForm vals env pre ++ fillOne vals env f :: fillForm vals env post) :=
  ⟨fillForm_length vals env, fun pre f post => by rw [fillForm_append]; rfl⟩

/-- C6: a field whose value is absent from the fill-value map or equal to
the skip sentinel `"N/A"` is recorded as skipped and triggers zero
automation-surface calls — the DOM is never touched for it. -/
theorem fill_skip_sentinel_no_calls (vals : ValueMap) (env : AutoEnv) (f : FieldSpec)
    (h : valueOf vals f = none ∨ valueOf vals f = some "N/A") :
    (fillOne vals env f).calls = 0 ∧
      ((fillOne vals env f).outcome = FillOutcome.skippedNoValue ∨
        (fillOne vals env f).outcome = FillOutcome.skippedMalformed) := by
  unfold fillOne
  rcases h with h | h <;> simp [h, pyFalsy] <;> split <;> simp

/-- Witness for C6: the required phone field mapped to `"N/A"` is skipped
with zero automation calls. -/
theorem fill_skip_sentinel_no_calls_witness :
    (fillOne [("Phone", "N/A")] autoOk fldPhone).calls = 0 ∧
      ((fillOne [("Phone", "N/A")] autoOk fldPhone).outcome = FillOutcome.skippedNoValue ∨
        (fillOne [("Phone", "N/A")] autoOk fldPhone).outcome = FillOutcome.skippedMalformed) :=
  fill_skip_sentinel_no_calls [("Phone", "N/A")] autoOk fldPhone (Or.inr (by decide))

/-- C10: a field entry missing its label, selector or type key is skipped
as malformed with zero automation-surface calls, and the loop continues
with the remaining fields unchanged. -/
theorem fill_malformed_field_skipped (vals : ValueMap) (env : AutoEnv) (f : FieldSpec)
    (h : f.label = none ∨ f.selector = none ∨ f.ftype = none) :
    fillOne vals env f = ⟨FillOutcome.skippedMalformed, 0⟩ ∧
    ∀ (pre post : List FieldSpec),
      fillForm vals env (pre ++ f :: post) =
        fillForm vals env pre ++
          FillStep.mk FillOutcome.skippedMalformed 0 :: fillForm vals env post := by
  have h1 : fillOne vals env f = ⟨FillOutcome.skippedMalformed, 0⟩ := by
    unfold fillOne
    rcases h with h | h | h <;> simp [h, pyFalsy]
  refine ⟨h1, fun pre post => ?_⟩
  rw [fillForm_append,
    show fillForm vals env (f :: post) = fillOne vals env f :: fillForm vals env post from rfl,
    h1]

/-- Witness for C10: a field with a missing selector, between two
well-formed fields, is skipped while both neighbours are processed. -/
theorem fill_malformed_field_skipped_witness :
    fillOne valsPhone autoOk fldNoSel = ⟨FillOutcome.skippedMalformed, 0⟩ ∧
    fillForm valsPhone autoOk [fldPhone, fldNoSel, fldPhone] =
      fillForm valsPhone autoOk [fldPhone] ++
        FillStep.mk FillOutcome.skippedMalformed 0 :: fillForm valsPhone autoOk [fldPhone] := by
  have h := fill_malformed_field_skipped valsPhone autoOk fldNoSel (Or.inr (Or.inl rfl))
  exact ⟨h.1, h.2 [fldPhone] [fldPhone]⟩

/-- C8 (corrected), counterexample: the claim says the Value Generator
never maps a `required=true` field to the skip sentinel regardless of the
reasoning service's output; but `_generate_field_values` returns the
service's parsed response verbatim, so when the service answers `"N/A"`
for the required phone field, the generator's output maps that required
field to the sentinel. -/
theorem generate_required_sentinel_passthrough :
    stSub.fields.map FieldSpec.required = [some true] ∧
    generateRun stSub [] envGenNA = Except.ok [("Phone", "N/A")] ∧
    lookupVal "Phone" [("Phone", "N/A")] = some "N/A" :=
  ⟨rfl, rfl, by decide⟩

/-- C8 (amended): the generator forwards the reasoning service's parsed
response with no post-processing (the required-field rule lives only in
the prompt text), and a field whose value in that response is the skip
sentinel is subsequently not touched by the executor — even a required
one. -/
theorem generate_verbatim :
    (∀ (st : FormStructure) (prof : Profile) (env : Env),
      generateRun st prof env = env.llmGenerate st prof) ∧
    (∀ (vals : ValueMap) (env : AutoEnv) (f : FieldSpec) (l : String),
      f.label = some l → lookupVal l vals = some "N/A" →
      (fillOne vals env f).calls = 0) := by
  refine ⟨fun _ _ _ => rfl, fun vals env f l hl hv => ?_⟩
  have hval : valueOf vals f = some "N/A" := by simp [valueOf, hl, hv]
  unfold fillOne
  simp [hval, pyFalsy]
  split <;> simp

/-- Witness for the amended C8: the required phone field, generated as
`"N/A"`, is never interacted with. -/
theorem generate_verbatim_witness :
    (fillOne [("Phone", "N/A")] autoOk fldPhone).calls = 0 :=
  generate_verbatim.2 [("Phone", "N/A")] autoOk fldPhone "Phone" rfl (by decide)

/-- C9 (corrected), counterexample: the claim says unreadable backing
storage degrades to an empty cache, but `_load_cache` catches only
`json.JSONDecodeError`; an I/O error while opening or reading the
existing file propagates out of the constructor. -/
theorem loadCache_unreadable_raises :
    loadCache CacheFile.unreadable = Except.error () := rfl

/-- C9 (amended): an absent backing file starts the cache empty and a
JSON-corrupt file degrades to an empty cache with a logged warning
(a parseable file loads its contents); only an unreadable file still
raises. -/
theorem loadCache_degrades :
    loadCache CacheFile.absent = Except.ok [] ∧
    loadCache CacheFile.corrupt = Except.ok [] ∧
    ∀ c : Cache, loadCache (CacheFile.wellFormed c) = Except.ok c :=
  ⟨rfl, rfl, fun _ => rfl⟩

/-- C1 (corrected), counterexample: the claim says `apply` returns a
discriminated three-way outcome; but the code returns a plain boolean, and
a run that script-clicks the submit button and a run that never submits
(no submit button found, paused for manual submission) return the very
same value `True`, so the return value does not discriminate `Submitted`
from `AwaitingManualSubmit` (and a failing run's `False` carries no reason
string, the reason being only logged). -/
theorem apply_outcome_not_discriminated :
    (applyRun [] envSub "https://jobs.example.com/a" []).out = Except.ok true ∧
    (applyRun [] envSub "https://jobs.example.com/a" []).submitted = true ∧
    (applyRun [] envMan "https://jobs.example.com/a" []).out = Except.ok true ∧
    (applyRun [] envMan "https://jobs.example.com/a" []).submitted = false ∧
    (applyRun [] envSub "https://jobs.example.com/a" []).out =
      (applyRun [] envMan "https://jobs.example.com/a" []).out :=
  ⟨rfl, rfl, rfl, rfl, rfl⟩

/-- C1 (amended): `apply` never lets an exception raised at any stage
escape — its result is always a boolean return value, and whenever the
body of its `try` block raises, the handler converts the run into a
`False` return. -/
theorem apply_total_boolean (c : Cache) (env : Env) (url : String) (prof : Profile) :
    (∃ b : Bool, (applyRun c env url prof).out = Except.ok b) ∧
    (∀ e : Unit, (tryBody c env url prof).out = Except.error e →
      (applyRun c env url prof).out = Except.ok false) := by
  unfold applyRun
  cases hb : (tryBody c env url prof).out with
  | error e => exact ⟨⟨false, by simp [hb]⟩, fun e' _ => by simp [hb]⟩
  | ok v =>
    refine ⟨⟨v, by simp [hb]⟩, fun e' he' => ?_⟩
    simp at he'

/-- Witness for the amended C1: a run whose navigation raises returns
`False` instead of propagating the exception. -/
theorem apply_total_boolean_witness :
    (applyRun [] envNavFail "https://jobs.example.com/a" []).out = Except.ok false :=
  (apply_total_boolean [] envNavFail "https://jobs.example.com/a" []).2 () rfl

/-- C2: when the analyzed schema has a non-empty field list but no
resolvable submit action (button absent, or selector missing or empty),
and the pipeline reaches the submit gate (navigation, analysis and
generation succeed — `_fill_form` cannot raise), `apply` treats the
attempt as requiring manual completion: it pauses for manual submission
and returns `True` without ever executing the automated submit click —
neither a failure return nor an automated submission. -/
theorem apply_no_submit_awaits_manual (c : Cache) (env : Env) (url : String)
    (prof : Profile) (html : String) (st : FormStructure) (vals : ValueMap)
    (hnav : env.nav = .ok html)
    (hout : (analyzeRun c url html env).out = .ok st)
    (hfields : st.fields ≠ [])
    (hgen : env.llmGenerate st prof = .ok vals)
    (hsubmit : submitSelOf st = none) :
    (applyRun c env url prof).out = Except.ok true ∧
    (applyRun c env url prof).submitted = false ∧
    (applyRun c env url prof).manualSubmitPause = true := by
  have hb := tryBody_no_submit c env url prof html st vals hnav hout hfields hgen hsubmit
  refine ⟨?_, ?_, ?_⟩ <;> simp [applyRun, hb]

/-- Witness for C2: a schema with one field and no submit button yields a
`True` return with no automated click and a manual-submission pause. -/
theorem apply_no_submit_awaits_manual_witness :
    (applyRun [] envMan "https://jobs.example.com/a" []).out = Except.ok true ∧
    (applyRun [] envMan "https://jobs.example.com/a" []).submitted = false ∧
    (applyRun [] envMan "https://jobs.example.com/a" []).manualSubmitPause = true :=
  apply_no_submit_awaits_manual [] envMan "https://jobs.example.com/a" [] "<html>"
    stMan valsPhone rfl rfl (by decide) rfl rfl

/-- C4: for a host not yet cached, a successful `_analyze_page_structure`
call issues exactly one reasoning-service request, and a second call for
any URL with the same host returns the identical cached schema with zero
service requests, no cache write, and an unchanged cache; moreover, over
any sequence of analyze calls from any starting cache, at most one cache
write ever occurs for a given host. -/
theorem analyze_cache_idempotent :
    (∀ (c : Cache) (url1 url2 html1 html2 : String) (env : Env) (st : FormStructure),
      netloc url2 = netloc url1 →
      lookupCache (netloc url1) c = none →
      (analyzeRun c url1 html1 env).out = Except.ok st →
      (analyzeRun c url1 html1 env).calls = 1 ∧
        analyzeRun (analyzeRun c url1 html1 env).cache url2 html2 env =
          ⟨Except.ok st, (analyzeRun c url1 html1 env).cache, 0, false⟩) ∧
    (∀ (h : String) (env : Env) (c : Cache) (calls : List (String × String)),
      analyzeWrites h env c calls ≤ 1) := by
  refine ⟨?_, fun h env c calls => analyzeWrites_le_one h env calls c⟩
  intro c url1 url2 html1 html2 env st hnet hmiss hout
  cases hA : env.llmAnalyze url1 html1 with
  | error e =>
    simp [analyzeRun, hmiss, hA] at hout
  | ok st' =>
    have hst : st' = st := by simpa [analyzeRun, hmiss, hA] using hout
    subst hst
    constructor
    · simp [analyzeRun, hmiss, hA]
    · have hcache : (analyzeRun c url1 html1 env).cache =
          insertCache (netloc url1) st' c := by
        simp [analyzeRun, hmiss, hA]
      rw [hcache]
      simp [analyzeRun, hnet, lookupCache_insertCache_self]

/-- Witness for C4: two consecutive analyze calls for two URLs of the host
`jobs.example.com` — the first issues one request, the second is a pure
cache hit returning the same schema. -/
theorem analyze_cache_idempotent_witness :
    (analyzeRun [] "https://jobs.example.com/a" "x" envSub).calls = 1 ∧
      analyzeRun (analyzeRun [] "https://jobs.example.com/a" "x" envSub).cache
          "https://jobs.example.com/b" "y" envSub =
        ⟨Except.ok stSub, (analyzeRun [] "https://jobs.example.com/a" "x" envSub).cache,
          0, false⟩ :=
  analyze_cache_idempotent.1 [] "https://jobs.example.com/a" "https://jobs.example.com/b"
    "x" "y" envSub stSub rfl rfl rfl

/-- C5 (corrected), counterexample: the claim says a reasoning-service
result with zero fields is never stored in the cache; but
`_analyze_page_structure` stores every parsed result unconditionally
(lines 164-165), so a zero-field schema is written to the cache for its
host. -/
theorem analyze_caches_empty_schema :
    (analyzeRun [] "https://jobs.example.com/a" "<html>" envEmptyFields).wrote = true ∧
    lookupCache "jobs.example.com"
        (analyzeRun [] "https://jobs.example.com/a" "<html>" envEmptyFields).cache =
      some stEmptyFields ∧
    stEmptyFields.fields = [] :=
  ⟨rfl, rfl, rfl⟩

/-- C5 (amended): the Structure Analyzer writes every successfully parsed
service result to the Schema Cache, zero-field results included; the
zero-fields rejection happens afterwards in `apply`, which returns a
failure — but only after the schema has already been cached. -/
theorem analyze_writes_unconditionally :
    (∀ (c : Cache) (url html : String) (env : Env) (st : FormStructure),
      lookupCache (netloc url) c = none →
      env.llmAnalyze url html = .ok st →
      (analyzeRun c url html env).wrote = true ∧
        (analyzeRun c url html env).cache = insertCache (netloc url) st c) ∧
    (∀ (c : Cache) (env : Env) (url : String) (prof : Profile) (html : String)
        (st : FormStructure),
      env.nav = .ok html →
      (analyzeRun c url html env).out = .ok st →
      st.fields = [] →
      (applyRun c env url prof).out = Except.ok false ∧
        (applyRun c env url prof).cache = (analyzeRun c url html env).cache) := by
  constructor
  · intro c url html env st hmiss hA
    constructor <;> simp [analyzeRun, hmiss, hA]
  · intro c env url prof html st hnav hout hfields
    have hb := tryBody_fields_empty c env url prof html st hnav hout hfields
    constructor <;> simp [applyRun, hb]

/-- Witness for the amended C5: a zero-field analysis is cached and the
same run's `apply` returns `False`. -/
theorem analyze_writes_unconditionally_witness :
    (analyzeRun [] "https://jobs.example.com/a" "<html>" envEmptyFields).wrote = true ∧
    (applyRun [] envEmptyFields "https://jobs.example.com/a" []).out = Except.ok false :=
  ⟨(analyze_writes_unconditionally.1 [] "https://jobs.example.com/a" "<html>"
      envEmptyFields stEmptyFields rfl rfl).1,
   (analyze_writes_unconditionally.2 [] envEmptyFields "https://jobs.example.com/a" []
      "<html>" stEmptyFields rfl rfl rfl).1⟩

/-- C7 (corrected), counterexample: the claim says `fill` returns a
per-field report from which the Applicator decides pass/fail; but
`_fill_form` returns `None` and `apply` ignores the per-field results: in
a run where every single field fill fails, `apply` still proceeds to
click submit and returns `True`. -/
theorem apply_ignores_fill_failures :
    fillForm valsPhone envFillFail.auto stSub.fields = [⟨FillOutcome.failed, 1⟩] ∧
    (applyRun [] envFillFail "https://jobs.example.com/a" []).out = Except.ok true ∧
    (applyRun [] envFillFail "https://jobs.example.com/a" []).submitted = true :=
  ⟨rfl, rfl, rfl⟩

/-- C7 (amended): the fill stage does produce one per-field outcome per
schema field (the per-field log record), but it returns nothing to its
caller, and the Applicator's result is computed identically with the fill
stage deleted — no pass/fail policy is derived from any fill report. -/
theorem fill_report_logged_not_returned :
    (∀ (vals : ValueMap) (env : AutoEnv) (fields : List FieldSpec),
      (fillForm vals env fields).length = fields.length) ∧
    (∀ (c : Cache) (env : Env) (url : String) (prof : Profile),
      applyRun c env url prof = applyRunNoFill c env url prof) :=
  ⟨fun vals env => fillForm_length vals env, fun _ _ _ _ => rfl⟩

end JobAgent
